import Mathlib

/-!
Verification of the beam shared library core: a shallow embedding of
`src/shared/src/sockets.rs` (the typed message envelope) and
`src/shared/src/config_shared.rs` (crypto identity bootstrap, one-time
publisher and certificate-serial formatter), with external collaborators
(filesystem, openssl, the rsa and jwt_simple crates, the directory lookup)
abstracted as parameters.
-/

/-! ## Message envelope (src/shared/src/sockets.rs) -/

/-- Modelled from the spec: the `Plain` payload state holds the cleartext
text (`State` is one of `Plain(text)` or `Encrypted(blob)`); the type itself
is defined outside `src/`. -/
structure Plain where
  text : String
deriving DecidableEq, Repr

/-- Modelled from the spec: the `Encrypted` payload state holds an opaque
ciphertext blob; the type itself is defined outside `src/`. The blob is never
inspected by the code under verification. -/
structure Encrypted where
  blob : String
deriving DecidableEq, Repr

/-- Modelled from the spec: `impl From<String> for Plain` (used by
`body.into()` in `MsgSocketRequest<Encrypted>::convert_self`): a plain
payload built from the cleartext string. -/
def plainOfString (s : String) : Plain := ⟨s⟩

/-- Models `MsgSocketRequest<State>` from sockets.rs, generic over the external
field types `AppOrProxyId` (`Addr`), `SystemTime` (`Time`), `MsgId` (`MId`)
and `serde_json::Value` (`Meta`), which are declared outside this file's
sources and are treated as opaque. -/
structure MsgSocketRequest (Addr Time MId Meta State : Type) where
  «from» : Addr
  «to» : List Addr
  expire : Time
  id : MId
  secret : State
  metadata : Meta
deriving DecidableEq, Repr

variable {Addr Time MId Meta : Type}

/-- Models `DecryptableMsg for MsgSocketRequest<Encrypted>::get_encryption`. -/
def get_encryption (m : MsgSocketRequest Addr Time MId Meta Encrypted) :
    Option Encrypted :=
  some m.secret

/-- Models `DecryptableMsg for MsgSocketRequest<Encrypted>::convert_self`:
destructures the envelope and rebuilds it with `secret: body.into()`. -/
def convert_self_decryptable
    (m : MsgSocketRequest Addr Time MId Meta Encrypted) (body : String) :
    MsgSocketRequest Addr Time MId Meta Plain :=
  { «from» := m.«from», «to» := m.«to», expire := m.expire,
    secret := plainOfString body, metadata := m.metadata, id := m.id }

/-- Models `EncryptableMsg for MsgSocketRequest<Plain>::get_plain`. -/
def get_plain (m : MsgSocketRequest Addr Time MId Meta Plain) : Plain :=
  m.secret

/-- Models `EncryptableMsg for MsgSocketRequest<Plain>::convert_self`:
destructures the envelope and rebuilds it with `secret: body`. -/
def convert_self_encryptable
    (m : MsgSocketRequest Addr Time MId Meta Plain) (body : Encrypted) :
    MsgSocketRequest Addr Time MId Meta Encrypted :=
  { «from» := m.«from», «to» := m.«to», expire := m.expire,
    metadata := m.metadata, secret := body, id := m.id }

/-- Modelled from the spec: the `encrypt` driver
(`MessageEnvelope<Plain> -> MessageEnvelope<Encrypted>`) lives outside
`src/`; per the spec it replaces the plaintext payload with the ciphertext
produced by the external encryption collaborator `enc` applied to the
envelope's plain payload, all other fields copied unchanged, which it does
through the `convert_self` implementation from sockets.rs. -/
def encryptMsg (enc : Plain → Encrypted)
    (m : MsgSocketRequest Addr Time MId Meta Plain) :
    MsgSocketRequest Addr Time MId Meta Encrypted :=
  convert_self_encryptable m (enc (get_plain m))

/-- Modelled from the spec: the `decrypt` driver
(`MessageEnvelope<Encrypted> -> MessageEnvelope<Plain>`) lives outside
`src/`; per the spec it is the inverse transform: the external decryption
collaborator `dec` recovers the cleartext string from the payload obtained
via `get_encryption`, and the envelope is rebuilt through `convert_self`
from sockets.rs, all other fields copied unchanged. -/
def decryptMsg (dec : Encrypted → String)
    (m : MsgSocketRequest Addr Time MId Meta Encrypted) :
    MsgSocketRequest Addr Time MId Meta Plain :=
  match get_encryption m with
  | some e => convert_self_decryptable m (dec e)
  | none => convert_self_decryptable m (dec m.secret)

/-- C1: for every well-formed plaintext envelope `m`, decrypting the
encryption of `m` yields `m` back exactly — every field including the
payload content is recovered — assuming the external cipher inverts
correctly (the cleartext handed to `convert_self` when decrypting the
encrypted envelope equals `m`'s original plaintext). -/
theorem decrypt_encrypt_roundtrip
    (m : MsgSocketRequest Addr Time MId Meta Plain)
    (enc : Plain → Encrypted) (dec : Encrypted → String)
    (h : dec (enc m.secret) = m.secret.text) :
    decryptMsg dec (encryptMsg enc m) = m := by
  cases m with
  | mk f t e i s md =>
    cases s with
    | mk txt =>
      simp [decryptMsg, encryptMsg, get_encryption, convert_self_decryptable,
        convert_self_encryptable, get_plain, plainOfString] at h ⊢
      exact h

/-- C1 witness: a concrete envelope with an invertible cipher round-trips. -/
theorem decrypt_encrypt_roundtrip_witness :
    decryptMsg (fun e => e.blob)
      (encryptMsg (fun p => ⟨p.text⟩)
        (⟨"appA", ["appB"], 7, 42, ⟨"hello"⟩, "meta"⟩ :
          MsgSocketRequest String Nat Nat String Plain)) =
      (⟨"appA", ["appB"], 7, 42, ⟨"hello"⟩, "meta"⟩ :
        MsgSocketRequest String Nat Nat String Plain) :=
  decrypt_encrypt_roundtrip
    (⟨"appA", ["appB"], 7, 42, ⟨"hello"⟩, "meta"⟩ :
      MsgSocketRequest String Nat Nat String Plain)
    (fun p => ⟨p.text⟩) (fun e => e.blob) rfl

/-- C2: both `convert_self` conversions replace only the secret payload
field: `from`, `to`, `expire`, `id` and `metadata` of the output equal those
of the input, and the secret of the output is exactly the supplied body. -/
theorem convert_self_frame
    (mp : MsgSocketRequest Addr Time MId Meta Plain)
    (me : MsgSocketRequest Addr Time MId Meta Encrypted)
    (be : Encrypted) (bs : String) :
    (convert_self_encryptable mp be).«from» = mp.«from» ∧
    (convert_self_encryptable mp be).«to» = mp.«to» ∧
    (convert_self_encryptable mp be).expire = mp.expire ∧
    (convert_self_encryptable mp be).id = mp.id ∧
    (convert_self_encryptable mp be).metadata = mp.metadata ∧
    (convert_self_encryptable mp be).secret = be ∧
    (convert_self_decryptable me bs).«from» = me.«from» ∧
    (convert_self_decryptable me bs).«to» = me.«to» ∧
    (convert_self_decryptable me bs).expire = me.expire ∧
    (convert_self_decryptable me bs).id = me.id ∧
    (convert_self_decryptable me bs).metadata = me.metadata ∧
    (convert_self_decryptable me bs).secret = plainOfString bs := by
  refine ⟨rfl, rfl, rfl, rfl, rfl, rfl, rfl, rfl, rfl, rfl, rfl, rfl⟩

/-! ## Configuration and crypto bootstrap (src/shared/src/config_shared.rs) -/

/-- Partial model of the repo's `SamplyBeamError` enum (declared outside
`src/`): the two variants produced by the code under verification, plus
`InvalidBeamId` standing for the errors `ProxyId::new` may surface. -/
inductive SamplyBeamError where
  | ConfigurationFailed : String → SamplyBeamError
  | SignEncryptError : String → SamplyBeamError
  | InvalidBeamId : String → SamplyBeamError
deriving DecidableEq, Repr

/-- Opaque stand-in for the external `rsa::RsaPrivateKey` type; its content
is never inspected by the code under verification. -/
structure RsaPrivateKey where
  material : String
deriving DecidableEq, Repr

/-- Opaque stand-in for the external `jwt_simple::RS256KeyPair` type,
carrying the only observable state the code manipulates: an optional key id
attached via `with_key_id`. -/
structure RS256KeyPair where
  material : String
  key_id : Option String
deriving DecidableEq, Repr

/-- Models `jwt_simple`'s `RS256KeyPair::with_key_id`: returns the key pair
with the key id attached, key material unchanged. -/
def RS256KeyPair.with_key_id (k : RS256KeyPair) (kid : String) : RS256KeyPair :=
  { k with key_id := some kid }

/-- Opaque stand-in for the repo's `ProxyId` (declared outside `src/`). -/
structure ProxyId where
  value : String
deriving DecidableEq, Repr

/-- Stand-in for an `openssl::x509::X509` certificate: the only part the
code under verification reads is the serial number, modelled as the
nonnegative integer value of the ASN.1 serial (`serial_number().to_bn()`). -/
structure Cert where
  serial : Nat
deriving DecidableEq, Repr

/-- Stand-in for the repo's `CryptoPublicPortion` (declared outside `src/`):
only the certificate is read by the code under verification. -/
structure CryptoPublicPortion where
  cert : Cert
deriving DecidableEq, Repr

/-- Models `ConfigCrypto` from config_shared.rs. -/
structure ConfigCrypto where
  privkey_rs256 : RS256KeyPair
  privkey_rsa : RsaPrivateKey
  public : CryptoPublicPortion
deriving DecidableEq, Repr

/-- Result of a Rust computation that can return `Ok`, return `Err`, or
abort the process (`panic!` / `expect`). -/
inductive PResult (α : Type) where
  | ok : α → PResult α
  | err : SamplyBeamError → PResult α
  | fatal : String → PResult α
deriving DecidableEq, Repr

/-- Whether a `PResult` is a successful return. -/
def PResult.isOk {α : Type} : PResult α → Bool
  | PResult.ok _ => true
  | _ => false

/-- Whether a `PResult` is a process abort. -/
def PResult.isFatal {α : Type} : PResult α → Bool
  | PResult.fatal _ => true
  | _ => false

/-- Whether an `Except` value is a success. -/
def exceptIsOk {ε α : Type} : Except ε α → Bool
  | Except.ok _ => true
  | Except.error _ => false

/-- The two fields of the clap `CliArgs` record that
`load_crypto_for_proxy` / `init_crypto_for_proxy` read. -/
structure CliArgs where
  privkey_file : String
  proxy_id : Option String
deriving DecidableEq, Repr

/-- The external collaborators of the bootstrapper, abstracted as values:
the filesystem read of the key file, the three key parsers from the `rsa`
and `jwt_simple` crates, `ProxyId::new` validation, the directory lookup
`get_cert_and_client_by_cname_as_pemstr`, and the openssl subject-name
walk `subject_name().entries().next().unwrap().data().as_utf8()?` used for
the cname (which can abort on a certificate with no subject entries, hence
a `PResult`). -/
structure LoadExt where
  read_to_string : Except String String
  from_pkcs1_pem : String → Except String RsaPrivateKey
  from_pkcs8_pem : String → Except String RsaPrivateKey
  rs256_from_pem : String → Except String RS256KeyPair
  proxy_id_new : String → Except SamplyBeamError ProxyId
  get_cert_and_client_by_cname_as_pemstr : ProxyId → Option CryptoPublicPortion
  cname_of_cert : Cert → PResult String

/-- Models `get_enrollment_msg` from config_shared.rs. -/
def get_enrollment_msg (proxy_id : Option String) : String :=
  "If you are not yet enrolled in the central vault, please execute the beam-enrollment companion tool (https://github.com/samply/beam-enroll) " ++
  (match proxy_id with
   | some id => "with the ProxyId " ++ id
   | _ => "") ++
  " and follow the steps on the screen.\nAfter your enrollment, please restart this Beam.Proxy, this message should dissapear."

/-- One hex digit as rendered by OpenSSL `BN_bn2hex`: uppercase. -/
def hexDigitU (d : Nat) : Char :=
  if d < 10 then Char.ofNat (48 + d) else Char.ofNat (55 + d)

/-- One byte as two uppercase hex digits. -/
def hexByte (b : Nat) : List Char :=
  [hexDigitU (b / 16), hexDigitU (b % 16)]

/-- Big-endian base-256 digits of `n`, accumulator style; the fuel argument
only bounds the recursion and is never exhausted when it starts at
`n + 1`. -/
def bnBytesAux : Nat → Nat → List Nat → List Nat
  | 0, _, acc => acc
  | fuel + 1, n, acc =>
    if n = 0 then acc else bnBytesAux fuel (n / 256) (n % 256 :: acc)

/-- Big-endian base-256 digits of `n` (empty for `n = 0`), the byte string
OpenSSL's bignum holds for a nonnegative integer with leading zero bytes
stripped. -/
def bnBytes (n : Nat) : List Nat := bnBytesAux (n + 1) n []

/-- Models OpenSSL `BN_bn2hex` (reached via `to_bn().to_hex_str()`) for a
nonnegative bignum: `"0"` for zero, otherwise each remaining byte rendered
as exactly two uppercase hex digits — so the output of a nonzero serial
always has even length and keeps a leading zero nibble (for example
`0x1AB` renders as `"01AB"`). -/
def bn_to_hex_str (n : Nat) : String :=
  if n = 0 then "0" else String.mk (((bnBytes n).map hexByte).flatten)

/-- Models Rust `str::to_ascii_lowercase` on one character. -/
def asciiLowerChar (c : Char) : Char :=
  if 65 ≤ c.toNat ∧ c.toNat ≤ 90 then Char.ofNat (c.toNat + 32) else c

/-- Models Rust `str::to_ascii_lowercase`. -/
def asciiLowercase (s : String) : String :=
  String.mk (s.data.map asciiLowerChar)

/-- The separator-insertion loop of `asn_str_to_vault_str`, verbatim: while
`i` is below the current length, insert `':'` at position `i` and advance
`i` by 3 (all characters are ASCII, so Rust's byte indices coincide with
character indices). -/
def colonLoop (a : List Char) (i : Nat) : List Char :=
  if h : i < a.length then colonLoop (a.insertIdx i ':') (i + 3) else a
termination_by a.length + 1 - i
decreasing_by
  have hl := @List.length_insertIdx Char ':' i a (Nat.le_of_lt h)
  omega

/-- Models `asn_str_to_vault_str` from config_shared.rs, on the integer value of
the ASN.1 serial: render via the bignum hex formatter, lowercase, then run
the separator-insertion loop starting at index 2. The `to_bn` / `to_hex_str`
error paths exist only for failures inside OpenSSL itself, which the integer
model cannot exhibit, so the result here is always `Except.ok`. -/
def asn_str_to_vault_str (asn : Nat) : Except SamplyBeamError String :=
  let a := asciiLowercase (bn_to_hex_str asn)
  Except.ok (String.mk (colonLoop a.data 2))

/-- The `expect` message of the missing-proxy-id abort in
`load_crypto_for_proxy`. -/
def load_no_proxy_msg : String :=
  "load_crypto() has been called without setting a Proxy ID (maybe in broker?). This should not happen."

/-- The PKCS#1-then-PKCS#8 fallback
`RsaPrivateKey::from_pkcs1_pem(..).or_else(|_| RsaPrivateKey::from_pkcs8_pem(..))`. -/
def rsa_parse (E : LoadExt) (pem : String) : Except String RsaPrivateKey :=
  match E.from_pkcs1_pem pem with
  | Except.ok k => Except.ok k
  | Except.error _ => E.from_pkcs8_pem pem

/-- Continuation of `load_crypto_for_proxy` after both key parses succeeded: the proxy-id
`expect`, `ProxyId::new`, the directory lookup, the serial formatting and
the final `ConfigCrypto` assembly. -/
def load_after_keys (E : LoadExt) (cli_args : CliArgs)
    (privkey_rsa : RsaPrivateKey) (privkey_rs256 : RS256KeyPair) :
    PResult ConfigCrypto :=
  match cli_args.proxy_id with
  | none => PResult.fatal load_no_proxy_msg
  | some pid =>
    match E.proxy_id_new pid with
    | Except.error e => PResult.err e
    | Except.ok proxy_id =>
      match E.get_cert_and_client_by_cname_as_pemstr proxy_id with
      | none =>
        PResult.err (SamplyBeamError.SignEncryptError ("Unable to parse your certificate."))
      | some public =>
        match asn_str_to_vault_str public.cert.serial with
        | Except.error e => PResult.err e
        | Except.ok serial =>
          PResult.ok
            { privkey_rs256 := privkey_rs256.with_key_id serial,
              privkey_rsa := privkey_rsa, public := public }

/-- Models `load_crypto_for_proxy` from config_shared.rs: read and trim the key
file, parse it as an RSA private key (PKCS#1 falling back to PKCS#8), parse
the same text as an RS256 signing key, then proceed to
`load_after_keys`. -/
def load_crypto_for_proxy (E : LoadExt) (cli_args : CliArgs) :
    PResult ConfigCrypto :=
  match E.read_to_string with
  | Except.error e =>
    PResult.err (SamplyBeamError.ConfigurationFailed
      ("Unable to load private key from file " ++ cli_args.privkey_file ++
        ": " ++ e ++ "\n" ++ get_enrollment_msg cli_args.proxy_id))
  | Except.ok contents =>
    let privkey_pem := contents.trim
    match rsa_parse E privkey_pem with
    | Except.error e =>
      PResult.err (SamplyBeamError.ConfigurationFailed
        ("Unable to interpret private key PEM as PKCS#1 or PKCS#8: " ++ e))
    | Except.ok privkey_rsa =>
      match E.rs256_from_pem privkey_pem with
      | Except.error e =>
        PResult.err (SamplyBeamError.ConfigurationFailed
          ("Unable to interpret private key PEM as PKCS#1 or PKCS#8: " ++ e))
      | Except.ok privkey_rs256 =>
        load_after_keys E cli_args privkey_rsa privkey_rs256

/-- Models `init_crypto_for_proxy` from config_shared.rs, with the process-wide
`CONFIG_SHARED_CRYPTO` once-cell made explicit as the `st` state passed in
and returned: load the crypto config, render the raw serial hex string and
the certificate cname, then publish via `set`, which aborts
(`panic!("Tried to initialize crypto twice (init_crypto())")`) when the
cell is already occupied and leaves the stored value untouched. -/
def init_crypto_for_proxy (E : LoadExt) (cli_args : CliArgs)
    (st : Option ConfigCrypto) :
    Option ConfigCrypto × PResult (String × String) :=
  match load_crypto_for_proxy E cli_args with
  | PResult.err e => (st, PResult.err e)
  | PResult.fatal m => (st, PResult.fatal m)
  | PResult.ok crypto =>
    let serial := bn_to_hex_str crypto.public.cert.serial
    match E.cname_of_cert crypto.public.cert with
    | PResult.fatal m => (st, PResult.fatal m)
    | PResult.err e => (st, PResult.err e)
    | PResult.ok cname =>
      match st with
      | some _ =>
        (st, PResult.fatal ("Tried to initialize crypto twice (init_crypto())"))
      | none => (some crypto, PResult.ok (serial, cname))

/-- Whether the key-loading stages of `load_crypto_for_proxy` (file read,
RSA parse, RS256 parse) all succeed. -/
def keys_ok (E : LoadExt) : Bool :=
  match E.read_to_string with
  | Except.error _ => false
  | Except.ok s =>
    exceptIsOk (rsa_parse E s.trim) && exceptIsOk (E.rs256_from_pem s.trim)

/-- Whether `load_crypto_for_proxy` succeeds and the subsequent cname
extraction in `init_crypto_for_proxy` succeeds as well, i.e. whether the
publish (`set`) call is reached. -/
def loaded_cname_ok (E : LoadExt) (cli_args : CliArgs) : Bool :=
  match load_crypto_for_proxy E cli_args with
  | PResult.ok c => (E.cname_of_cert c.public.cert).isOk
  | _ => false

/-! ## Proof-side characterisation of the separator loop -/

/-- Recursive description of what the separator loop does to the part of
the string beyond the already-processed prefix: emit `':'`, copy up to two
characters, recurse. -/
def colonGroups : List Char → List Char
  | [] => []
  | [a] => [':', a]
  | a :: b :: rest => ':' :: a :: b :: colonGroups rest

/-- Inserting at the length of a prefix places the element between the parts. -/
theorem insertIdx_at_append (pre rest : List Char) (c : Char) :
    (pre ++ rest).insertIdx pre.length c = pre ++ c :: rest := by
  induction pre with
  | nil => simp
  | cons x xs ih => simp [List.insertIdx_succ_cons, ih]

/-- The separator loop started at the length of an already-processed prefix
acts as `colonGroups` on the remainder. -/
theorem colonLoop_append (rest pre : List Char) :
    colonLoop (pre ++ rest) pre.length = pre ++ colonGroups rest := by
  match rest with
  | [] =>
    rw [colonLoop]
    simp [colonGroups]
  | [r] =>
    rw [colonLoop]
    have hc : pre.length < (pre ++ [r]).length := by simp
    rw [dif_pos hc, insertIdx_at_append]
    rw [colonLoop]
    have hc2 : ¬ (pre.length + 3 < (pre ++ ':' :: [r]).length) := by simp
    rw [dif_neg hc2]
    simp [colonGroups]
  | r1 :: r2 :: rs =>
    rw [colonLoop]
    have hc : pre.length < (pre ++ r1 :: r2 :: rs).length := by simp
    rw [dif_pos hc, insertIdx_at_append]
    have hpre : pre ++ ':' :: r1 :: r2 :: rs = (pre ++ [':', r1, r2]) ++ rs := by
      simp
    have hlen : pre.length + 3 = (pre ++ [':', r1, r2]).length := by simp
    rw [hpre, hlen, colonLoop_append rs (pre ++ [':', r1, r2])]
    simp [colonGroups]
termination_by rest.length

/-- The separator loop as called by `asn_str_to_vault_str` (start index 2)
splits the string into its first two characters and `colonGroups` of the
rest. -/
theorem colonLoop_two (l : List Char) :
    colonLoop l 2 = l.take 2 ++ colonGroups (l.drop 2) := by
  match l with
  | [] =>
    rw [colonLoop]
    simp [colonGroups]
  | [a] =>
    rw [colonLoop]
    simp [colonGroups]
  | a :: b :: rest =>
    have h2 : (2 : Nat) = ([a, b] : List Char).length := by simp
    have happ : a :: b :: rest = [a, b] ++ rest := by simp
    rw [happ, h2, colonLoop_append]
    simp

/-- The formatted serial produced by `asn_str_to_vault_str`. -/
def vaultStr (n : Nat) : String :=
  String.mk (colonLoop (asciiLowercase (bn_to_hex_str n)).data 2)

/-- The formatter `asn_str_to_vault_str` never fails in the integer model. -/
theorem asn_str_to_vault_str_ok (n : Nat) :
    asn_str_to_vault_str n = Except.ok (vaultStr n) := rfl

/-- Computable description of the formatted serial. -/
theorem vaultStr_eq (n : Nat) :
    vaultStr n =
      String.mk ((asciiLowercase (bn_to_hex_str n)).data.take 2 ++
        colonGroups ((asciiLowercase (bn_to_hex_str n)).data.drop 2)) := by
  rw [vaultStr, colonLoop_two]

/-- Lowercase hex digit test ('0'-'9' or 'a'-'f'). -/
def isLowerHexDigit (c : Char) : Bool :=
  (48 ≤ c.toNat && c.toNat ≤ 57) || (97 ≤ c.toNat && c.toNat ≤ 102)

/-- Checker for the shape claimed of a formatted serial: consecutive groups
of exactly two lowercase hex digits separated by single colons. -/
def grouped2 : List Char → Bool
  | [a, b] => isLowerHexDigit a && isLowerHexDigit b
  | a :: b :: ':' :: rest => isLowerHexDigit a && isLowerHexDigit b && grouped2 rest
  | _ => false

/-- The sixteen characters `BN_bn2hex` can emit. -/
def upHexChars : List Char := ("0123456789ABCDEF").data

/-- The sixteen characters a lowercased hex rendering can contain. -/
def lowHexChars : List Char := ("0123456789abcdef").data

theorem hexDigitU_mem : ∀ d : Nat, d < 16 → hexDigitU d ∈ upHexChars := by
  decide

theorem asciiLowerChar_mem : ∀ c ∈ upHexChars, asciiLowerChar c ∈ lowHexChars := by
  decide

theorem lowHexChars_isLower : ∀ c ∈ lowHexChars, isLowerHexDigit c = true := by
  decide

/-- Every base-256 digit produced by `bnBytesAux` is below 256. -/
theorem bnBytesAux_lt_256 (fuel : Nat) :
    ∀ (n : Nat) (acc : List Nat), (∀ b ∈ acc, b < 256) →
      ∀ b ∈ bnBytesAux fuel n acc, b < 256 := by
  induction fuel with
  | zero => intro n acc hacc; simpa [bnBytesAux] using hacc
  | succ f ih =>
    intro n acc hacc b hb
    rw [bnBytesAux] at hb
    by_cases hn : n = 0
    · rw [if_pos hn] at hb; exact hacc b hb
    · rw [if_neg hn] at hb
      refine ih (n / 256) (n % 256 :: acc) ?_ b hb
      intro x hx
      cases hx with
      | head => exact Nat.mod_lt _ (by omega)
      | tail _ h => exact hacc x h

/-- The byte decomposition never shrinks the accumulator. -/
theorem bnBytesAux_length (fuel : Nat) :
    ∀ (n : Nat) (acc : List Nat),
      acc.length ≤ (bnBytesAux fuel n acc).length := by
  induction fuel with
  | zero => intro n acc; simp [bnBytesAux]
  | succ f ih =>
    intro n acc
    rw [bnBytesAux]
    by_cases hn : n = 0
    · rw [if_pos hn]
    · rw [if_neg hn]
      have := ih (n / 256) (n % 256 :: acc)
      simp at this
      omega

/-- A nonzero integer has at least one base-256 digit. -/
theorem bnBytes_ne_nil (n : Nat) (h : n ≠ 0) : bnBytes n ≠ [] := by
  rw [bnBytes, bnBytesAux, if_neg h]
  intro hnil
  have := bnBytesAux_length n (n / 256) (n % 256 :: [])
  rw [hnil] at this
  simp at this

/-- All base-256 digits of `n` are below 256. -/
theorem bnBytes_lt_256 (n : Nat) : ∀ b ∈ bnBytes n, b < 256 := by
  refine bnBytesAux_lt_256 (n + 1) n [] ?_
  simp

/-- The hex rendering of a byte list has twice its length. -/
theorem flatten_hexByte_length (bs : List Nat) :
    ((bs.map hexByte).flatten).length = 2 * bs.length := by
  induction bs with
  | nil => simp
  | cons b rest ih =>
    simp [hexByte, ih]
    omega

/-- Every character of the hex rendering of a byte list below 256 is an
uppercase hex digit. -/
theorem flatten_hexByte_mem (bs : List Nat) (hbs : ∀ b ∈ bs, b < 256) :
    ∀ c ∈ (bs.map hexByte).flatten, c ∈ upHexChars := by
  intro c hc
  rw [List.mem_flatten] at hc
  obtain ⟨l, hl, hcl⟩ := hc
  rw [List.mem_map] at hl
  obtain ⟨b, hb, rfl⟩ := hl
  have hb256 := hbs b hb
  simp [hexByte] at hcl
  rcases hcl with h1 | h2
  · rw [h1]
    exact hexDigitU_mem (b / 16) (by omega)
  · rw [h2]
    exact hexDigitU_mem (b % 16) (by omega)

/-- For nonzero `n` the bignum hex rendering has even positive length. -/
theorem bn_to_hex_str_length (n : Nat) (h : n ≠ 0) :
    (bn_to_hex_str n).data.length = 2 * (bnBytes n).length ∧
    2 ≤ (bn_to_hex_str n).data.length := by
  rw [bn_to_hex_str, if_neg h]
  constructor
  · exact flatten_hexByte_length (bnBytes n)
  · rw [flatten_hexByte_length (bnBytes n)]
    have hne := bnBytes_ne_nil n h
    have : 1 ≤ (bnBytes n).length := by
      cases hl : (bnBytes n) with
      | nil => exact absurd hl hne
      | cons x xs => simp
    omega

/-- Every character of the hex rendering of any `n` is an uppercase hex
digit. -/
theorem bn_to_hex_str_mem (n : Nat) :
    ∀ c ∈ (bn_to_hex_str n).data, c ∈ upHexChars := by
  by_cases h : n = 0
  · subst h
    intro c hc
    simp [bn_to_hex_str] at hc
    rw [hc]
    decide
  · rw [bn_to_hex_str, if_neg h]
    exact flatten_hexByte_mem (bnBytes n) (bnBytes_lt_256 n)

/-- A nonempty even-length list of lowercase hex digits, split as first pair
plus `colonGroups` of the rest, passes the two-character-group checker. -/
theorem grouped2_take_drop (l : List Char) (heven : l.length % 2 = 0)
    (hne : l ≠ []) (hhex : ∀ c ∈ l, isLowerHexDigit c = true) :
    grouped2 (l.take 2 ++ colonGroups (l.drop 2)) = true := by
  match l with
  | [] => exact absurd rfl hne
  | [a] => simp at heven
  | a :: b :: rest =>
    have ha : isLowerHexDigit a = true := hhex a (by simp)
    have hb : isLowerHexDigit b = true := hhex b (by simp)
    match rest with
    | [] => simp [colonGroups, grouped2, ha, hb]
    | [c] =>
      simp only [List.length_cons, List.length_nil] at heven
      omega
    | c :: d :: rs =>
      have hrec := grouped2_take_drop (c :: d :: rs)
        (by simp [List.length_cons] at heven ⊢; omega)
        (by simp)
        (fun x hx => hhex x (by
          simp only [List.mem_cons] at hx ⊢
          tauto))
      simp only [List.take, List.drop] at hrec ⊢
      simp only [colonGroups, List.cons_append, List.nil_append] at hrec ⊢
      simp [grouped2, ha, hb]
      exact hrec
termination_by l.length

/-- C6 counterexample: at serial 0 the formatter returns the single
character string `"0"`, which is not partitioned into two-character
lowercase hex groups (OpenSSL renders every nonzero bignum with an even
number of hex digits, but zero as `"0"`). -/
theorem asn_vault_zero_not_grouped :
    asn_str_to_vault_str 0 = Except.ok ("0") ∧
    grouped2 (("0") : String).data = false := by
  constructor
  · rw [asn_str_to_vault_str_ok]
    have hv : vaultStr 0 = "0" := by
      rw [vaultStr_eq]
      decide
    rw [hv]
  · decide

/-- C6 (amended): for every nonzero serial — equivalently, every serial
whose bignum hex rendering has even length — the string produced by
`asn_str_to_vault_str` is lowercase hex partitioned entirely into
2-character groups joined by single colons; only serial 0, whose hex
rendering `"0"` has odd length, yields a final 1-character group instead. -/
theorem asn_vault_grouped (n : Nat) (h : n ≠ 0) :
    asn_str_to_vault_str n = Except.ok (vaultStr n) ∧
    grouped2 (vaultStr n).data = true := by
  refine ⟨asn_str_to_vault_str_ok n, ?_⟩
  show grouped2 (colonLoop (asciiLowercase (bn_to_hex_str n)).data 2) = true
  rw [colonLoop_two]
  have hl : (asciiLowercase (bn_to_hex_str n)).data =
      (bn_to_hex_str n).data.map asciiLowerChar := rfl
  have hlen := bn_to_hex_str_length n h
  apply grouped2_take_drop
  · rw [hl, List.length_map]
    have h1 := hlen.1
    omega
  · rw [hl]
    intro hnil
    have hlm : ((bn_to_hex_str n).data.map asciiLowerChar).length = 0 := by
      rw [hnil]
      rfl
    rw [List.length_map] at hlm
    have h2 := hlen.2
    omega
  · intro c hc
    rw [hl] at hc
    obtain ⟨c0, hc0, rfl⟩ := List.mem_map.1 hc
    exact lowHexChars_isLower _ (asciiLowerChar_mem c0 (bn_to_hex_str_mem n c0 hc0))

/-- C6 witness: the amended statement at serial 256 (hex `"0100"`). -/
theorem asn_vault_grouped_witness :
    asn_str_to_vault_str 256 = Except.ok (vaultStr 256) ∧
    grouped2 (vaultStr 256).data = true :=
  asn_vault_grouped 256 (by decide)

/-- C7: the formatter applied to the serial with hex value
440E0D94F36966391117BC9F867D84F0C48CFCB7 returns exactly
"44:0e:0d:94:f3:69:66:39:11:17:bc:9f:86:7d:84:f0:c4:8c:fc:b7". -/
theorem asn_vault_test_vector :
    asn_str_to_vault_str 0x440E0D94F36966391117BC9F867D84F0C48CFCB7 =
      Except.ok ("44:0e:0d:94:f3:69:66:39:11:17:bc:9f:86:7d:84:f0:c4:8c:fc:b7") := by
  rw [asn_str_to_vault_str_ok]
  have hv : vaultStr 0x440E0D94F36966391117BC9F867D84F0C48CFCB7 =
      "44:0e:0d:94:f3:69:66:39:11:17:bc:9f:86:7d:84:f0:c4:8c:fc:b7" := by
    rw [vaultStr_eq]
    decide
  rw [hv]

/-- Applying `colonGroups` to a nonempty list gives a strictly longer list. -/
theorem colonGroups_length_gt (l : List Char) (h : l ≠ []) :
    l.length < (colonGroups l).length := by
  match l with
  | [] => exact absurd rfl h
  | [a] => simp [colonGroups]
  | a :: b :: rest =>
    match rest with
    | [] => simp [colonGroups]
    | c :: rs =>
      have ih := colonGroups_length_gt (c :: rs) (by simp)
      simp only [colonGroups, List.length_cons] at ih ⊢
      omega
termination_by l.length

/-- Every character of `colonGroups l` is a colon or a character of `l`. -/
theorem colonGroups_mem (l : List Char) :
    ∀ c ∈ colonGroups l, c = ':' ∨ c ∈ l := by
  match l with
  | [] => simp [colonGroups]
  | [a] =>
    intro c hc
    simp [colonGroups] at hc
    rcases hc with h | h
    · exact Or.inl h
    · exact Or.inr (by simp [h])
  | a :: b :: rest =>
    intro c hc
    simp only [colonGroups, List.mem_cons] at hc
    rcases hc with h | h | h | h
    · exact Or.inl h
    · exact Or.inr (by simp [h])
    · exact Or.inr (by simp [h])
    · rcases colonGroups_mem rest c h with h2 | h2
      · exact Or.inl h2
      · exact Or.inr (by simp [h2])
termination_by l.length

/-- The uppercase letters `BN_bn2hex` can emit. -/
def upLetters : List Char := ("ABCDEF").data

theorem upHex_alpha : ∀ c ∈ upHexChars, c.isAlpha = true → c ∈ upLetters := by
  decide

theorem upLetters_not_low : ∀ c ∈ upLetters, c ∈ lowHexChars → False := by
  decide

theorem upLetters_ne_colon : ∀ c ∈ upLetters, c = ':' → False := by
  decide

/-- The raw bignum hex rendering of a serial differs from the formatted
serial whenever the rendering is longer than two characters (the formatter
inserts at least one colon) or contains a letter (the formatter
lowercases). -/
theorem bn_hex_ne_vault (n : Nat)
    (hhex : 2 < (bn_to_hex_str n).length ∨
      ∃ c ∈ (bn_to_hex_str n).data, c.isAlpha = true) :
    bn_to_hex_str n ≠ vaultStr n := by
  intro heq
  rw [vaultStr_eq] at heq
  have hl : (asciiLowercase (bn_to_hex_str n)).data =
      (bn_to_hex_str n).data.map asciiLowerChar := rfl
  have hdata : (bn_to_hex_str n).data =
      (asciiLowercase (bn_to_hex_str n)).data.take 2 ++
        colonGroups ((asciiLowercase (bn_to_hex_str n)).data.drop 2) :=
    congrArg String.data heq
  have hslen : (bn_to_hex_str n).length = (bn_to_hex_str n).data.length := rfl
  have hmaplen : (asciiLowercase (bn_to_hex_str n)).data.length =
      (bn_to_hex_str n).data.length := by
    rw [hl, List.length_map]
  rcases hhex with hlong | ⟨c, hc, halpha⟩
  · have hgt : 2 < (asciiLowercase (bn_to_hex_str n)).data.length := by
      rw [hmaplen, ← hslen]
      exact hlong
    have hlens := congrArg List.length hdata
    rw [List.length_append, List.length_take] at hlens
    have htake2 : (2 : Nat) ⊓ (asciiLowercase (bn_to_hex_str n)).data.length = 2 :=
      inf_eq_left.mpr (by omega)
    rw [htake2] at hlens
    have hdropne : (asciiLowercase (bn_to_hex_str n)).data.drop 2 ≠ [] := by
      intro hnil
      have hdl := congrArg List.length hnil
      rw [List.length_drop] at hdl
      simp only [List.length_nil] at hdl
      omega
    have hgl := colonGroups_length_gt _ hdropne
    rw [List.length_drop] at hgl
    rw [hslen] at hlong
    rw [hmaplen] at hgl
    omega
  · have hcup : c ∈ upHexChars := bn_to_hex_str_mem n c hc
    have hclet : c ∈ upLetters := upHex_alpha c hcup halpha
    rw [hdata] at hc
    have hc_in_low : c ∈ (asciiLowercase (bn_to_hex_str n)).data → False := by
      intro hmem
      rw [hl] at hmem
      obtain ⟨c0, _, hcc⟩ := List.mem_map.1 hmem
      have hlow : c ∈ lowHexChars := by
        rw [← hcc]
        exact asciiLowerChar_mem c0 (bn_to_hex_str_mem n c0 (by assumption))
      exact upLetters_not_low c hclet hlow
    rcases List.mem_append.1 hc with h1 | h2
    · exact hc_in_low (List.take_subset 2 _ h1)
    · rcases colonGroups_mem _ c h2 with hcol | hmem
      · exact upLetters_ne_colon c hclet hcol
      · exact hc_in_low (List.drop_subset 2 _ hmem)

/-! ## Bootstrap and publisher claims -/

/-- A successful `load_crypto_for_proxy` always carries the signing key
tagged with the formatted serial of its own certificate. -/
theorem load_ok_key_id (E : LoadExt) (args : CliArgs) (cc : ConfigCrypto)
    (h : load_crypto_for_proxy E args = PResult.ok cc) :
    cc.privkey_rs256.key_id = some (vaultStr cc.public.cert.serial) := by
  cases hread : E.read_to_string with
  | error e => simp [load_crypto_for_proxy, hread] at h
  | ok contents =>
    cases hrsa : rsa_parse E contents.trim with
    | error e => simp [load_crypto_for_proxy, hread, hrsa] at h
    | ok kr =>
      cases hrs : E.rs256_from_pem contents.trim with
      | error e => simp [load_crypto_for_proxy, hread, hrsa, hrs] at h
      | ok k2 =>
        cases hpid : args.proxy_id with
        | none => simp [load_crypto_for_proxy, load_after_keys, hread, hrsa, hrs, hpid] at h
        | some pid =>
          cases hnew : E.proxy_id_new pid with
          | error e =>
            simp [load_crypto_for_proxy, load_after_keys, hread, hrsa, hrs, hpid, hnew] at h
          | ok prid =>
            cases hlook : E.get_cert_and_client_by_cname_as_pemstr prid with
            | none =>
              simp [load_crypto_for_proxy, load_after_keys, hread, hrsa, hrs,
                hpid, hnew, hlook] at h
            | some pub =>
              simp [load_crypto_for_proxy, load_after_keys, hread, hrsa, hrs,
                hpid, hnew, hlook, asn_str_to_vault_str_ok] at h
              rw [← h]
              simp [RS256KeyPair.with_key_id]

/-- A successful `init_crypto_for_proxy` comes from a successful load whose
value is published, and returns the raw bignum hex rendering of the
certificate serial. -/
theorem init_ok_inv (E : LoadExt) (args : CliArgs)
    (st st2 : Option ConfigCrypto) (serial cname : String)
    (h : init_crypto_for_proxy E args st = (st2, PResult.ok (serial, cname))) :
    ∃ cc, load_crypto_for_proxy E args = PResult.ok cc ∧ st2 = some cc ∧
      serial = bn_to_hex_str cc.public.cert.serial := by
  cases hload : load_crypto_for_proxy E args with
  | err e => simp [init_crypto_for_proxy, hload] at h
  | fatal m => simp [init_crypto_for_proxy, hload] at h
  | ok crypto =>
    cases hcn : E.cname_of_cert crypto.public.cert with
    | fatal m => simp [init_crypto_for_proxy, hload, hcn] at h
    | err e => simp [init_crypto_for_proxy, hload, hcn] at h
    | ok nm =>
      cases st with
      | some c0 => simp [init_crypto_for_proxy, hload, hcn] at h
      | none =>
        simp only [init_crypto_for_proxy, hload, hcn, Prod.mk.injEq] at h
        refine ⟨crypto, rfl, h.1.symm, ?_⟩
        have h2 := h.2
        simp only [PResult.ok.injEq, Prod.mk.injEq] at h2
        exact h2.1.symm

/-- C3: once the identity has been published (`CONFIG_SHARED_CRYPTO` holds a
value), any further run of `init_crypto_for_proxy` leaves the stored
identity unchanged and never returns successfully; and whenever the run
actually reaches the second `set` (load and cname extraction succeeded), it
aborts with the double-initialization panic. -/
theorem init_second_publish_aborts (E : LoadExt) (args : CliArgs)
    (st : Option ConfigCrypto) (c : ConfigCrypto) (h : st = some c) :
    (init_crypto_for_proxy E args st).1 = st ∧
    (init_crypto_for_proxy E args st).2.isOk = false ∧
    (loaded_cname_ok E args = true →
      (init_crypto_for_proxy E args st).2 =
        PResult.fatal ("Tried to initialize crypto twice (init_crypto())")) := by
  subst h
  cases hload : load_crypto_for_proxy E args with
  | err e => simp [init_crypto_for_proxy, loaded_cname_ok, hload, PResult.isOk]
  | fatal m => simp [init_crypto_for_proxy, loaded_cname_ok, hload, PResult.isOk]
  | ok crypto =>
    cases hcn : E.cname_of_cert crypto.public.cert with
    | fatal m =>
      simp [init_crypto_for_proxy, loaded_cname_ok, hload, hcn, PResult.isOk,
        PResult.isFatal]
    | err e =>
      simp [init_crypto_for_proxy, loaded_cname_ok, hload, hcn, PResult.isOk,
        PResult.isFatal]
    | ok nm =>
      simp [init_crypto_for_proxy, loaded_cname_ok, hload, hcn, PResult.isOk]

/-- Concrete RSA key used by the concrete collaborator instances below. -/
def rsaKeyA : RsaPrivateKey := ⟨"rsa-material"⟩

/-- Concrete RS256 key pair (no key id yet). -/
def rs256KeyA : RS256KeyPair := ⟨"rs256-material", none⟩

/-- Concrete certificate with serial 0x01BB (hex rendering "01BB"). -/
def certA : Cert := ⟨443⟩

/-- Concrete public portion. -/
def publicA : CryptoPublicPortion := ⟨certA⟩

/-- Concrete identity record, as if already published. -/
def cryptoA : ConfigCrypto := ⟨rs256KeyA, rsaKeyA, publicA⟩

/-- Concrete collaborators for which every stage succeeds. -/
def extAllOk : LoadExt where
  read_to_string := Except.ok ("keytext")
  from_pkcs1_pem := fun _ => Except.ok rsaKeyA
  from_pkcs8_pem := fun _ => Except.ok rsaKeyA
  rs256_from_pem := fun _ => Except.ok rs256KeyA
  proxy_id_new := fun s => Except.ok ⟨s⟩
  get_cert_and_client_by_cname_as_pemstr := fun _ => some publicA
  cname_of_cert := fun _ => PResult.ok ("proxy-a")

/-- Concrete collaborators whose key-file read fails. -/
def extReadFail : LoadExt :=
  { extAllOk with read_to_string := Except.error ("denied") }

/-- Concrete collaborators for which both RSA key parses and the RS256
parse reject the key text. -/
def extParseFail : LoadExt :=
  { extAllOk with
    from_pkcs1_pem := fun _ => Except.error ("bad pkcs1"),
    from_pkcs8_pem := fun _ => Except.error ("bad pkcs8"),
    rs256_from_pem := fun _ => Except.error ("bad pem") }

/-- Concrete collaborators whose directory lookup finds nothing. -/
def extLookupNone : LoadExt :=
  { extAllOk with get_cert_and_client_by_cname_as_pemstr := fun _ => none }

/-- Command line with a proxy id configured. -/
def argsWithProxy : CliArgs := ⟨"privkey.pem", some "proxy-a.broker"⟩

/-- Command line without a proxy id (broker role). -/
def argsNoProxy : CliArgs := ⟨"privkey.pem", none⟩

/-- C3 witness: with the slot already holding an identity, a further
`init_crypto_for_proxy` run leaves it unchanged and does not succeed. -/
theorem init_second_publish_aborts_witness :
    (init_crypto_for_proxy extAllOk argsWithProxy (some cryptoA)).1 = some cryptoA ∧
    (init_crypto_for_proxy extAllOk argsWithProxy (some cryptoA)).2.isOk = false ∧
    (loaded_cname_ok extAllOk argsWithProxy = true →
      (init_crypto_for_proxy extAllOk argsWithProxy (some cryptoA)).2 =
        PResult.fatal ("Tried to initialize crypto twice (init_crypto())")) :=
  init_second_publish_aborts extAllOk argsWithProxy (some cryptoA) cryptoA rfl

/-- C4 counterexample: with no proxy id configured and an unreadable key
file, `load_crypto_for_proxy` returns the recoverable error
`ConfigurationFailed` instead of aborting — the file read precedes the
proxy-id `expect`. -/
theorem load_no_proxy_can_return_error :
    load_crypto_for_proxy extReadFail argsNoProxy =
      PResult.err (SamplyBeamError.ConfigurationFailed
        ("Unable to load private key from file privkey.pem: denied\n" ++
          get_enrollment_msg none)) ∧
    (load_crypto_for_proxy extReadFail argsNoProxy).isFatal = false := by
  exact ⟨rfl, rfl⟩

/-- C4 (amended): when the proxy id is absent, `load_crypto_for_proxy`
never returns an identity, and if the stages before the proxy-id check
(file read and both key parses) succeed it aborts with the missing-proxy-id
panic; an earlier read or parse failure still surfaces as a recoverable
configuration error. -/
theorem load_no_proxy_fatal_after_keys (E : LoadExt) (args : CliArgs)
    (hpid : args.proxy_id = none) :
    (load_crypto_for_proxy E args).isOk = false ∧
    (keys_ok E = true → load_crypto_for_proxy E args = PResult.fatal load_no_proxy_msg) := by
  cases hread : E.read_to_string with
  | error e => simp [load_crypto_for_proxy, keys_ok, hread, PResult.isOk]
  | ok contents =>
    cases hrsa : rsa_parse E contents.trim with
    | error e =>
      simp [load_crypto_for_proxy, keys_ok, hread, hrsa, PResult.isOk, exceptIsOk]
    | ok kr =>
      cases hrs : E.rs256_from_pem contents.trim with
      | error e =>
        simp [load_crypto_for_proxy, keys_ok, hread, hrsa, hrs, PResult.isOk,
          exceptIsOk]
      | ok k2 =>
        simp [load_crypto_for_proxy, load_after_keys, keys_ok, hread, hrsa, hrs,
          hpid, PResult.isOk, exceptIsOk]

/-- C4 witness: with all key stages succeeding and no proxy id, the load
aborts with the missing-proxy-id panic. -/
theorem load_no_proxy_fatal_after_keys_witness :
    (load_crypto_for_proxy extAllOk argsNoProxy).isOk = false ∧
    (keys_ok extAllOk = true →
      load_crypto_for_proxy extAllOk argsNoProxy = PResult.fatal load_no_proxy_msg) :=
  load_no_proxy_fatal_after_keys extAllOk argsNoProxy rfl

/-- C8: whenever the directory lookup returns none while every earlier
stage succeeded, `load_crypto_for_proxy` returns the sign/encrypt-domain
error "Unable to parse your certificate." and never an identity. -/
theorem load_lookup_none_sign_encrypt_error (E : LoadExt) (args : CliArgs)
    (s : String) (kr : RsaPrivateKey) (k2 : RS256KeyPair) (pid : String)
    (prid : ProxyId)
    (hread : E.read_to_string = Except.ok s)
    (hrsa : rsa_parse E s.trim = Except.ok kr)
    (hrs : E.rs256_from_pem s.trim = Except.ok k2)
    (hpid : args.proxy_id = some pid)
    (hnew : E.proxy_id_new pid = Except.ok prid)
    (hlook : E.get_cert_and_client_by_cname_as_pemstr prid = none) :
    load_crypto_for_proxy E args =
      PResult.err (SamplyBeamError.SignEncryptError ("Unable to parse your certificate.")) ∧
    (load_crypto_for_proxy E args).isOk = false := by
  simp [load_crypto_for_proxy, load_after_keys, hread, hrsa, hrs, hpid, hnew,
    hlook, PResult.isOk]

/-- C8 witness: the concrete lookup-fails collaborators produce exactly the
sign/encrypt error. -/
theorem load_lookup_none_sign_encrypt_error_witness :
    load_crypto_for_proxy extLookupNone argsWithProxy =
      PResult.err (SamplyBeamError.SignEncryptError ("Unable to parse your certificate.")) ∧
    (load_crypto_for_proxy extLookupNone argsWithProxy).isOk = false :=
  load_lookup_none_sign_encrypt_error extLookupNone argsWithProxy
    "keytext" rsaKeyA rs256KeyA "proxy-a.broker" ⟨"proxy-a.broker"⟩
    rfl rfl rfl rfl rfl rfl

/-- C9: a key text rejected by both supported encodings (PKCS#1 and
PKCS#8) makes `load_crypto_for_proxy` return `ConfigurationFailed` carrying
the second parser's cause — it neither aborts the process nor produces an
identity. -/
theorem load_malformed_key_config_error (E : LoadExt) (args : CliArgs)
    (s e1 e2 : String)
    (hread : E.read_to_string = Except.ok s)
    (h1 : E.from_pkcs1_pem s.trim = Except.error e1)
    (h2 : E.from_pkcs8_pem s.trim = Except.error e2) :
    load_crypto_for_proxy E args =
      PResult.err (SamplyBeamError.ConfigurationFailed
        ("Unable to interpret private key PEM as PKCS#1 or PKCS#8: " ++ e2)) ∧
    (load_crypto_for_proxy E args).isFatal = false ∧
    (load_crypto_for_proxy E args).isOk = false := by
  have hrsa : rsa_parse E s.trim = Except.error e2 := by
    simp [rsa_parse, h1, h2]
  simp [load_crypto_for_proxy, hread, hrsa, PResult.isOk, PResult.isFatal]

/-- C9 witness: the concrete parser-rejecting collaborators yield exactly
the configuration error. -/
theorem load_malformed_key_config_error_witness :
    load_crypto_for_proxy extParseFail argsWithProxy =
      PResult.err (SamplyBeamError.ConfigurationFailed
        ("Unable to interpret private key PEM as PKCS#1 or PKCS#8: " ++ "bad pkcs8")) ∧
    (load_crypto_for_proxy extParseFail argsWithProxy).isFatal = false ∧
    (load_crypto_for_proxy extParseFail argsWithProxy).isOk = false :=
  load_malformed_key_config_error extParseFail argsWithProxy
    "keytext" "bad pkcs1" "bad pkcs8" rfl rfl rfl

/-- Value of a successful `Except`, with a default for the error case. -/
def exGetOr {ε α : Type} (e : Except ε α) (d : α) : α :=
  match e with
  | Except.ok a => a
  | Except.error _ => d

/-- Error of a failed `Except`, with a default for the success case. -/
def exErrOr {ε α : Type} (e : Except ε α) (d : ε) : ε :=
  match e with
  | Except.ok _ => d
  | Except.error x => x

/-- The PKCS#1/PKCS#8 fallback succeeds exactly when one of the two parsers
does. -/
theorem rsa_parse_isOk (E : LoadExt) (p : String) :
    exceptIsOk (rsa_parse E p) =
      (exceptIsOk (E.from_pkcs1_pem p) || exceptIsOk (E.from_pkcs8_pem p)) := by
  cases h1 : E.from_pkcs1_pem p <;> simp [rsa_parse, exceptIsOk, h1]

/-- C5: the signing-key parse covers the same two key formats as the raw
RSA parse and fails with the same configuration error. The external
`RS256KeyPair::from_pem` is abstract here; the hypothesis `hcompat` records
its documented behaviour of attempting both PKCS#1 and PKCS#8. Under it:
any key text accepted in either format by the RSA parse is also accepted by
the signing-key parse and the bootstrap proceeds past both parses; and when
the signing-key parse would reject the text (total failure), both RSA
parses reject it too and the bootstrap fails with the configuration error
naming both attempted formats. -/
theorem rs256_same_fallback_same_error (E : LoadExt) (args : CliArgs)
    (s : String)
    (hread : E.read_to_string = Except.ok s)
    (hcompat : ∀ t : String,
      (exceptIsOk (E.from_pkcs1_pem t) || exceptIsOk (E.from_pkcs8_pem t)) = true →
      exceptIsOk (E.rs256_from_pem t) = true) :
    (exceptIsOk (rsa_parse E s.trim) = true →
      exceptIsOk (E.rs256_from_pem s.trim) = true) ∧
    (exceptIsOk (rsa_parse E s.trim) = true →
      load_crypto_for_proxy E args =
        load_after_keys E args (exGetOr (rsa_parse E s.trim) rsaKeyA)
          (exGetOr (E.rs256_from_pem s.trim) rs256KeyA)) ∧
    (exceptIsOk (E.rs256_from_pem s.trim) = false →
      load_crypto_for_proxy E args =
        PResult.err (SamplyBeamError.ConfigurationFailed
          ("Unable to interpret private key PEM as PKCS#1 or PKCS#8: " ++
            exErrOr (E.from_pkcs8_pem s.trim) ("")))) := by
  have hstep : exceptIsOk (rsa_parse E s.trim) = true →
      exceptIsOk (E.rs256_from_pem s.trim) = true := by
    intro hok
    apply hcompat
    rw [← rsa_parse_isOk]
    exact hok
  refine ⟨hstep, ?_, ?_⟩
  · intro hok
    cases hrsa : rsa_parse E s.trim with
    | error e => rw [hrsa] at hok; simp [exceptIsOk] at hok
    | ok kr =>
      have h256 := hstep hok
      cases hrs : E.rs256_from_pem s.trim with
      | error e => rw [hrs] at h256; simp [exceptIsOk] at h256
      | ok k2 =>
        simp [load_crypto_for_proxy, hread, hrsa, hrs, exGetOr]
  · intro hfail
    have hrsafail : exceptIsOk (rsa_parse E s.trim) = false := by
      cases hb : exceptIsOk (rsa_parse E s.trim) with
      | false => rfl
      | true => rw [hstep hb] at hfail; cases hfail
    cases h1 : E.from_pkcs1_pem s.trim with
    | ok k => rw [rsa_parse_isOk, h1] at hrsafail; simp [exceptIsOk] at hrsafail
    | error e1 =>
      cases h2 : E.from_pkcs8_pem s.trim with
      | ok k => rw [rsa_parse_isOk, h1, h2] at hrsafail; simp [exceptIsOk] at hrsafail
      | error e2 =>
        have hrsa : rsa_parse E s.trim = Except.error e2 := by
          simp [rsa_parse, h1, h2]
        simp [load_crypto_for_proxy, hread, hrsa, h2, exErrOr]

/-- C5 witness: the all-succeeding collaborators instantiate the statement;
the compatibility hypothesis holds by computation. -/
theorem rs256_same_fallback_same_error_witness :
    (exceptIsOk (rsa_parse extAllOk ("keytext").trim) = true →
      exceptIsOk (extAllOk.rs256_from_pem ("keytext").trim) = true) ∧
    (exceptIsOk (rsa_parse extAllOk ("keytext").trim) = true →
      load_crypto_for_proxy extAllOk argsWithProxy =
        load_after_keys extAllOk argsWithProxy
          (exGetOr (rsa_parse extAllOk ("keytext").trim) rsaKeyA)
          (exGetOr (extAllOk.rs256_from_pem ("keytext").trim) rs256KeyA)) ∧
    (exceptIsOk (extAllOk.rs256_from_pem ("keytext").trim) = false →
      load_crypto_for_proxy extAllOk argsWithProxy =
        PResult.err (SamplyBeamError.ConfigurationFailed
          ("Unable to interpret private key PEM as PKCS#1 or PKCS#8: " ++
            exErrOr (extAllOk.from_pkcs8_pem ("keytext").trim) ("")))) :=
  rs256_same_fallback_same_error extAllOk argsWithProxy "keytext" rfl
    (fun _ _ => rfl)

/-- Key id attached to the signing key of a published identity, if any. -/
def keyIdOf : Option ConfigCrypto → Option String
  | some cc => cc.privkey_rs256.key_id
  | none => none

/-- C10: the serial string handed back by a successful
`init_crypto_for_proxy` is the raw bignum hex rendering (uppercase, no
separators) of the certificate serial, not the formatted serial attached to
the signing key: whenever that rendering is longer than two characters or
contains a letter, the returned string differs from the key id carried by
the published signing key (which is present). -/
theorem init_serial_differs_from_key_id (E : LoadExt) (args : CliArgs)
    (st st2 : Option ConfigCrypto) (serial cname : String)
    (h : init_crypto_for_proxy E args st = (st2, PResult.ok (serial, cname)))
    (hhex : 2 < serial.length ∨ ∃ c ∈ serial.data, c.isAlpha = true) :
    st2.isSome = true ∧ keyIdOf st2 ≠ none ∧ keyIdOf st2 ≠ some serial := by
  obtain ⟨cc, hload, hst2, hser⟩ := init_ok_inv E args st st2 serial cname h
  have hkid := load_ok_key_id E args cc hload
  have hne : serial ≠ vaultStr cc.public.cert.serial := by
    rw [hser] at hhex ⊢
    exact bn_hex_ne_vault cc.public.cert.serial hhex
  subst hst2
  refine ⟨rfl, ?_, ?_⟩
  · simp [keyIdOf, hkid]
  · simp [keyIdOf, hkid]
    intro hcontra
    exact hne hcontra.symm

/-- The identity the all-succeeding collaborators load: the signing key is
tagged with the formatted serial "01:bb" of certificate serial 0x01BB. -/
def cryptoLoaded : ConfigCrypto :=
  ⟨⟨"rs256-material", some "01:bb"⟩, rsaKeyA, publicA⟩

/-- C10 witness: with certificate serial 0x01BB the returned serial "01BB"
differs from the key id "01:bb" attached to the published signing key. -/
theorem init_serial_differs_from_key_id_witness :
    (some cryptoLoaded : Option ConfigCrypto).isSome = true ∧
    keyIdOf (some cryptoLoaded) ≠ none ∧
    keyIdOf (some cryptoLoaded) ≠ some ("01BB") :=
  init_serial_differs_from_key_id extAllOk argsWithProxy none
    (some cryptoLoaded) "01BB" "proxy-a"
    (by
      have hv : vaultStr 443 = "01:bb" := by
        rw [vaultStr_eq]
        decide
      have hload : load_crypto_for_proxy extAllOk argsWithProxy =
          PResult.ok cryptoLoaded := by
        simp [load_crypto_for_proxy, load_after_keys, rsa_parse, extAllOk,
          argsWithProxy, asn_str_to_vault_str_ok, hv, RS256KeyPair.with_key_id,
          cryptoLoaded, rs256KeyA, rsaKeyA, publicA, certA]
      have hserial : bn_to_hex_str 443 = "01BB" := by decide
      unfold init_crypto_for_proxy
      rw [hload]
      simp [extAllOk, cryptoLoaded, publicA, certA, hserial])
    (Or.inl (by decide))
